import Mathlib

/-!
Verification of the automation runner engine of the roystervi repository.

The two runner classes are shallowly embedded as pure transition functions:

* `MotionLightAutomationRunner` (src/AutomationsPage/automations/MotionLightAutomation.js)
  becomes `checkMotionState` (one poll-timer callback), `countdownFire`
  (the deferred turn-off callback) and `MotionRunnerState.stopM`.
* `AlarmAutoArmRunner` (src/AutomationsPage/automations/AlarmAutoArmComponent.js)
  becomes `checkAndArm` (one poll-timer callback, with `armAlarmWithValidation`
  for the arm sequence), `isInArmingWindow` and `AlarmRunnerState.stopA`.

Conventions of the embedding:

* External calls (`getHAEntityState`, `callHAService`) are modelled by input
  oracles (`FetchResult`, `ServiceResult`, action-success booleans); the event
  log sink and the trigger-count persistence call are modelled as outputs of
  each step.  Wall-clock timestamps recorded inside history entries and the
  per-entry diagnostic counters are omitted; the entry tag and detail text
  (the data the specification talks about) are kept.
* The recurring `setInterval` poll loop is modelled by the trace functions
  `runM` / `runA`, which invoke the callback only while the runner's interval
  is live (`isRunning`); `clearInterval` is modelled by those functions not
  consuming further inputs once `isRunning` is false.
* The deferred one-shot timers are modelled as flags: `timeoutPending`
  (`this.timeoutId !== null` of the motion runner) and `verifyPending`
  (the alarm runner's 5-second verification `setTimeout`, for which the
  source keeps no handle).
-/

namespace Roystervi

/-- Result of a `getHAEntityState` call: the entity's state string, or a
thrown error with its message. -/
inductive FetchResult where
  | ok (st : String)
  | err (msg : String)
deriving DecidableEq, Repr

/-- Result of a `callHAService` call: success, an HTTP 500 rejection
(recognised in the source by `message.includes('500')`), or any other
failure. -/
inductive ServiceResult where
  | ok
  | err500
  | errOther (msg : String)
deriving DecidableEq, Repr

/-- A `logEvent` record: event type (`started`, `stopped`, `triggered`,
`action_executed`, `error`) and message. -/
structure LogEvent where
  etype : String
  msg : String
deriving DecidableEq, Repr

/-- Keep the last `cap` elements of a list (JavaScript `slice(-cap)`). -/
def lastN (cap : Nat) (l : List α) : List α :=
  l.drop (l.length - cap)

/-! ## Scheduled-Window Runner: `AlarmAutoArmRunner` -/

/-- `AlarmAutoArmRunner.isInArmingWindow`, as a function of the wall clock's
hour and minute (the source reads them from `new Date()`). -/
def isInArmingWindow (hour minute : Nat) : Bool :=
  let currentTime := hour * 60 + minute
  let armStart := 21 * 60
  let armEnd := 7 * 60
  if armStart > armEnd then
    decide (currentTime ≥ armStart) || decide (currentTime < armEnd)
  else
    decide (currentTime ≥ armStart) && decide (currentTime < armEnd)

/-! ## Edge-Triggered Runner: `MotionLightAutomationRunner` -/

/-- The entity references and delay read from `automation.settings`.
`delay_seconds` is `none` when the setting is missing or does not parse
as a number (JavaScript `parseInt` returning `NaN`). -/
structure MotionConfig where
  motion_entity : Option String
  light_entity : Option String
  delay_seconds : Option Nat
deriving DecidableEq, Repr

/-- `parseInt(settings.delay_seconds) || 15`: a missing, unparsable or zero
setting falls back to 15 seconds. -/
def effectiveDelay (o : Option Nat) : Nat :=
  match o with
  | some n => if n = 0 then 15 else n
  | none => 15

/-- One entry of the motion runner's state-history ring (timestamp and the
diagnostic counter snapshots are omitted from the embedding). -/
structure MHistEntry where
  motionState : String
  action : String
deriving DecidableEq, Repr

/-- The mutable instance fields of `MotionLightAutomationRunner`.
`timeoutPending` models `this.timeoutId !== null` (a scheduled deferred
turn-off); the `pollInterval` handle is modelled by the trace function
`runM` consuming inputs only while `isRunning`. -/
structure MotionRunnerState where
  isRunning : Bool
  timeoutPending : Bool
  lastMotionState : Option String
  stateHistory : List MHistEntry
  errorCount : Nat
  consecutiveSuccesses : Nat
deriving DecidableEq, Repr

/-- `this.maxErrors` of both runner classes. -/
def maxErrors : Nat := 10

/-- Light service calls invoked by the motion runner. -/
inductive MAction where
  | turnOn (entity : String)
  | turnOff (entity : String)
deriving DecidableEq, Repr

/-- Observable side effects of one motion-runner callback: service calls
invoked, events appended to the log sink, delays (seconds) of deferred
turn-offs scheduled, and the number of `updateAutomationTriggerCount`
calls. -/
structure MOut where
  actions : List MAction
  events : List LogEvent
  sched : List Nat
  trig : Nat
deriving DecidableEq, Repr

def MOut.empty : MOut := ⟨[], [], [], 0⟩

def MOut.app (a b : MOut) : MOut :=
  ⟨a.actions ++ b.actions, a.events ++ b.events, a.sched ++ b.sched, a.trig + b.trig⟩

/-- Inputs of one poll callback: the result of the motion-state fetch and
whether the light service call (if one is made) succeeds. -/
structure MPollInput where
  fetch : FetchResult
  actionOk : Bool
deriving DecidableEq, Repr

/-- `MotionLightAutomationRunner.addStateHistory`: push and keep only the
last 50 entries. -/
def MotionRunnerState.addStateHistory (s : MotionRunnerState)
    (motionState action : String) : MotionRunnerState :=
  let h := s.stateHistory ++ [⟨motionState, action⟩]
  { s with stateHistory := if h.length > 50 then h.drop (h.length - 50) else h }

/-- `MotionLightAutomationRunner.stop`: no-op when already stopped;
otherwise clears the poll interval and the pending deferred turn-off and
logs a `stopped` event. -/
def MotionRunnerState.stopM (s : MotionRunnerState) :
    MotionRunnerState × List LogEvent :=
  if s.isRunning then
    ({ s with isRunning := false, timeoutPending := false },
     [⟨"stopped", "Automation stopped"⟩])
  else (s, [])

/-- `MotionLightAutomationRunner.checkMotionState`: one poll-timer callback. -/
def checkMotionState (cfg : MotionConfig) (s : MotionRunnerState)
    (inp : MPollInput) : MotionRunnerState × MOut :=
  if s.errorCount ≥ maxErrors then
    let terminal : LogEvent :=
      ⟨"error", "Automation stopped due to " ++ toString s.errorCount ++
        " consecutive errors"⟩
    ((s.stopM).1, ⟨[], terminal :: (s.stopM).2, [], 0⟩)
  else
    match cfg.motion_entity, cfg.light_entity with
    | some _, some lightEntity =>
      let delaySeconds := effectiveDelay cfg.delay_seconds
      match inp.fetch with
      | .err m =>
        let s1 := { s with errorCount := s.errorCount + 1, consecutiveSuccesses := 0 }
        let s2 := s1.addStateHistory "error" "motion_state_error"
        (s2,
         ⟨[],
          if s1.errorCount = 1 ∨ s1.errorCount % 5 = 0 then
            [⟨"error", "Failed to get motion state: " ++ m⟩]
          else [],
          [], 0⟩)
      | .ok currentMotionState =>
        let s1 := { s with errorCount := 0,
                           consecutiveSuccesses := s.consecutiveSuccesses + 1 }
        match s1.lastMotionState with
        | none =>
          (({ s1 with lastMotionState := some currentMotionState }).addStateHistory
              currentMotionState "initialized",
           MOut.empty)
        | some last =>
          if last = currentMotionState then (s1, MOut.empty)
          else if last = "off" ∧ currentMotionState = "on" then
            let s2 := s1.addStateHistory currentMotionState "motion_detected"
            let s3 :=
              if s2.timeoutPending then
                ({ s2 with timeoutPending := false }).addStateHistory
                  currentMotionState "countdown_cancelled"
              else s2
            let s4 :=
              if inp.actionOk then s3.addStateHistory currentMotionState "light_turned_on"
              else s3.addStateHistory currentMotionState "light_error"
            let evs : List LogEvent :=
              if inp.actionOk then
                [⟨"triggered", "Motion detected - turned on " ++ lightEntity⟩]
              else [⟨"error", "Failed to turn on light"⟩]
            ({ s4 with lastMotionState := some currentMotionState },
             ⟨[.turnOn lightEntity], evs, [], 1⟩)
          else if last = "on" ∧ currentMotionState = "off" then
            let s2 := s1.addStateHistory currentMotionState "countdown_started"
            ({ s2 with timeoutPending := true,
                       lastMotionState := some currentMotionState },
             ⟨[],
              [⟨"triggered", "Motion stopped - starting " ++ toString delaySeconds ++
                "s countdown"⟩],
              [delaySeconds], 0⟩)
          else
            ({ s1 with lastMotionState := some currentMotionState }, MOut.empty)
    | _, _ =>
      let s1 := { s with errorCount := s.errorCount + 1, consecutiveSuccesses := 0 }
      let s2 := s1.addStateHistory "error" "general_error"
      (s2,
       ⟨[], [⟨"error",
         "Error checking motion state: Motion or light entity not configured"⟩],
        [], 0⟩)

/-- The deferred turn-off callback scheduled on an on→off transition
(the body of the `setTimeout` in `checkMotionState`).  `lightEntity` and
`delaySeconds` are the values captured by the closure; the input gives the
re-query result and the outcome of the turn-off call. -/
def countdownFire (lightEntity : String) (delaySeconds : Nat)
    (s : MotionRunnerState) (inp : MPollInput) : MotionRunnerState × MOut :=
  match inp.fetch with
  | .ok st =>
    if st = "off" then
      if inp.actionOk then
        ({ s.addStateHistory "off" "light_turned_off" with timeoutPending := false },
         ⟨[.turnOff lightEntity],
          [⟨"action_executed", "No motion for " ++ toString delaySeconds ++
            "s - turned off " ++ lightEntity⟩],
          [], 0⟩)
      else
        ({ s.addStateHistory "off" "light_error" with timeoutPending := false },
         ⟨[.turnOff lightEntity], [⟨"error", "Failed to turn off light"⟩], [], 0⟩)
    else
      ({ { s.addStateHistory st "countdown_cancelled" with
            lastMotionState := some st } with timeoutPending := false },
       ⟨[], [⟨"triggered", "Motion detected during countdown - cancelled turn-off"⟩],
        [], 0⟩)
  | .err m =>
      ({ s.addStateHistory "unknown" "timeout_error" with timeoutPending := false },
       ⟨[], [⟨"error", "Error during timeout: " ++ m⟩], [], 0⟩)

/-- The recurring 750 ms poll loop: one `checkMotionState` callback per input,
firing only while the interval is live (`clearInterval` inside `stop` means a
stopped runner receives no further callbacks). -/
def runM (cfg : MotionConfig) (s : MotionRunnerState) :
    List MPollInput → MotionRunnerState × MOut
  | [] => (s, MOut.empty)
  | i :: is =>
    if s.isRunning then
      let step := checkMotionState cfg s i
      let rest := runM cfg step.1 is
      (rest.1, step.2.app rest.2)
    else (s, MOut.empty)

/-- The runner state right after `start()` set `isRunning` and reset the
error counter (the initial `initializeState` fetch is modelled as an
ordinary first poll). -/
def freshMotion : MotionRunnerState :=
  { isRunning := true, timeoutPending := false, lastMotionState := none,
    stateHistory := [], errorCount := 0, consecutiveSuccesses := 0 }

/-! ## Scheduled-Window Runner state and transitions -/

/-- One entry of the alarm runner's state-history ring (timestamp and the
metadata map are omitted from the embedding). -/
structure AHistEntry where
  action : String
  details : String
deriving DecidableEq, Repr

/-- The mutable instance fields of `AlarmAutoArmRunner`.  `verifyPending`
models the 5-second post-arm verification `setTimeout`, for which the source
stores no handle; `lastArmAttempt` is the epoch-milliseconds timestamp used
for cooldown gating. -/
structure AlarmRunnerState where
  isRunning : Bool
  lastAlarmState : Option String
  stateHistory : List AHistEntry
  errorCount : Nat
  lastArmAttempt : Option Int
  verifyPending : Bool
deriving DecidableEq, Repr

/-- `this.armCooldown`: 5 minutes in milliseconds. -/
def armCooldown : Int := 5 * 60 * 1000

/-- A wall-clock reading: hour and minute for the window predicate, epoch
milliseconds for cooldown arithmetic. -/
structure ATime where
  hour : Nat
  minute : Nat
  epochMs : Int
deriving DecidableEq, Repr

/-- Alarm panel service calls invoked by the alarm runner. -/
inductive AAction where
  | armAway
  | armHome
deriving DecidableEq, Repr

/-- Observable side effects of one alarm-runner callback: service calls,
log events, epoch timestamps of arm sequences initiated, and the number of
`updateAutomationTriggerCount` calls. -/
structure AOut where
  actions : List AAction
  events : List LogEvent
  armAttempts : List Int
  trig : Nat
deriving DecidableEq, Repr

def AOut.empty : AOut := ⟨[], [], [], 0⟩

def AOut.app (a b : AOut) : AOut :=
  ⟨a.actions ++ b.actions, a.events ++ b.events,
   a.armAttempts ++ b.armAttempts, a.trig + b.trig⟩

/-- External outcomes consumed by `armAlarmWithValidation`: the pre-arm
re-fetch, the `alarm_arm_away` call, whether the diagnostic detail fetch in
the HTTP-500 branch succeeds, and the `alarm_arm_home` fallback call. -/
structure ArmInput where
  preFetch : FetchResult
  arm : ServiceResult
  detailFetchOk : Bool
  fallback : ServiceResult
deriving DecidableEq, Repr

/-- Inputs of one `checkAndArm` callback. -/
structure APollInput where
  fetch : FetchResult
  armInp : ArmInput
deriving DecidableEq, Repr

/-- `AlarmAutoArmRunner.addStateHistory`: push and keep only the last 100
entries. -/
def AlarmRunnerState.addStateHistory (s : AlarmRunnerState)
    (action details : String) : AlarmRunnerState :=
  let h := s.stateHistory ++ [⟨action, details⟩]
  { s with stateHistory := if h.length > 100 then h.drop (h.length - 100) else h }

/-- `AlarmAutoArmRunner.stop`: no-op when already stopped; otherwise clears
the recurring check interval and logs a `stopped` event.  The source stores
no handle for the post-arm verification `setTimeout`, so `verifyPending` is
left untouched. -/
def AlarmRunnerState.stopA (s : AlarmRunnerState) :
    AlarmRunnerState × List LogEvent :=
  if s.isRunning then
    ({ s with isRunning := false },
     [⟨"stopped", "Alarm auto-arm automation stopped"⟩])
  else (s, [])

/-- Shared tail of both successful arm paths of `armAlarmWithValidation`:
record `armed`, log `action_executed` and schedule the 5-second
verification timer. -/
def armSuccess (s : AlarmRunnerState) (acts : List AAction) :
    AlarmRunnerState × AOut :=
  ({ s.addStateHistory "armed" "Arm command completed" with verifyPending := true },
   ⟨acts, [⟨"action_executed", "Auto-armed alarm during night hours"⟩], [], 0⟩)

/-- `AlarmAutoArmRunner.armAlarmWithValidation`: pre-arm race guard, primary
`alarm_arm_away` call, one `alarm_arm_home` fallback on an HTTP-500
rejection, with all failures caught inside the method. -/
def armAlarmWithValidation (s : AlarmRunnerState) (inp : ArmInput) :
    AlarmRunnerState × AOut :=
  match inp.preFetch with
  | .err m =>
    (s.addStateHistory "arm_error" ("Failed to arm: " ++ m),
     ⟨[], [⟨"error", "Failed to arm alarm: " ++ m⟩], [], 0⟩)
  | .ok preArmState =>
    if preArmState = "disarmed" then
      let s1 := s.addStateHistory "arming" "Sending alarm_arm_away command"
      match inp.arm with
      | .ok => armSuccess s1 [.armAway]
      | .err500 =>
        let s2 :=
          if inp.detailFetchOk then
            s1.addStateHistory "service_error" "HTTP 500 - Check alarm panel config"
          else s1
        match inp.fallback with
        | .ok =>
          armSuccess (s2.addStateHistory "fallback_arm" "Used alarm_arm_home as fallback")
            [.armAway, .armHome]
        | _ =>
          (s2.addStateHistory "arm_error" "Failed to arm: HTTP 500",
           ⟨[.armAway, .armHome], [⟨"error", "Failed to arm alarm: HTTP 500"⟩], [], 0⟩)
      | .errOther m =>
        (s1.addStateHistory "arm_error" ("Failed to arm: " ++ m),
         ⟨[.armAway], [⟨"error", "Failed to arm alarm: " ++ m⟩], [], 0⟩)
    else
      (s.addStateHistory "abort_arm"
          ("Alarm changed to " ++ preArmState ++ " before arming"),
       ⟨[], [], [], 0⟩)

/-- The `no_action` history detail built from the two failed conditions. -/
def noArmReason (inWindow : Bool) (currentState : String) : String :=
  "Not arming: " ++ String.intercalate " and "
    ((if inWindow then [] else ["outside time window"]) ++
     (if currentState = "disarmed" then []
      else ["alarm is " ++ currentState ++ " (need: disarmed)"]))

/-- The arm branch of `checkAndArm`: run the arm sequence, then record
`lastArmAttempt := now` (regardless of the sequence's outcome, which never
escapes `armAlarmWithValidation`) and call `updateAutomationTriggerCount`. -/
def doArm (s : AlarmRunnerState) (now : ATime) (armInp : ArmInput)
    (evs1 : List LogEvent) : AlarmRunnerState × AOut :=
  let r := armAlarmWithValidation s armInp
  ({ r.1 with lastArmAttempt := some now.epochMs },
   ⟨r.2.actions, evs1 ++ r.2.events, [now.epochMs], r.2.trig + 1⟩)

/-- `AlarmAutoArmRunner.checkAndArm`: one 30-second poll callback. -/
def checkAndArm (s : AlarmRunnerState) (now : ATime) (inp : APollInput) :
    AlarmRunnerState × AOut :=
  if s.errorCount ≥ maxErrors then
    let terminal : LogEvent :=
      ⟨"error", "Automation stopped due to " ++ toString s.errorCount ++
        " consecutive errors"⟩
    ((s.stopA).1, ⟨[], terminal :: (s.stopA).2, [], 0⟩)
  else
    match inp.fetch with
    | .err m =>
      let s1 := { s with errorCount := s.errorCount + 1 }
      let s2 := s1.addStateHistory "fetch_error" ("Failed to get alarm state: " ++ m)
      (s2, ⟨[], [⟨"error", "Failed to get alarm state: " ++ m⟩], [], 0⟩)
    | .ok currentState =>
      let s1 := { s with errorCount := 0 }
      let inWindow := isInArmingWindow now.hour now.minute
      let changed :=
        match s1.lastAlarmState with
        | some last =>
          if last = currentState then none
          else some (last, currentState)
        | none => none
      let s2 :=
        match changed with
        | some (last, _) =>
          s1.addStateHistory "state_change" (last ++ " to " ++ currentState)
        | none => s1
      let evs1 : List LogEvent :=
        match changed with
        | some (last, _) =>
          [⟨"triggered", "Alarm state changed: " ++ last ++ " to " ++ currentState⟩]
        | none => []
      let s3 := { s2 with lastAlarmState := some currentState }
      if inWindow ∧ currentState = "disarmed" then
        match s3.lastArmAttempt with
        | some t =>
          let cooldownRemaining : Int := armCooldown - (now.epochMs - t)
          if 0 < cooldownRemaining then
            let remainingMinutes : Int := (cooldownRemaining + 59999) / 60000
            (s3.addStateHistory "cooldown"
                ("Waiting " ++ toString remainingMinutes ++ "m before next arm attempt"),
             ⟨[], evs1, [], 0⟩)
          else doArm s3 now inp.armInp evs1
        | none => doArm s3 now inp.armInp evs1
      else
        (s3.addStateHistory "no_action" (noArmReason inWindow currentState),
         ⟨[], evs1, [], 1⟩)

/-- The recurring 30-second check loop, analogous to `runM`. -/
def runA (s : AlarmRunnerState) :
    List (ATime × APollInput) → AlarmRunnerState × AOut
  | [] => (s, AOut.empty)
  | i :: is =>
    if s.isRunning then
      let step := checkAndArm s i.1 i.2
      let rest := runA step.1 is
      (rest.1, step.2.app rest.2)
    else (s, AOut.empty)

/-- The runner state right after `start()` (the `initializeState` fetch is
modelled as an ordinary first poll). -/
def freshAlarm : AlarmRunnerState :=
  { isRunning := true, lastAlarmState := none, stateHistory := [],
    errorCount := 0, lastArmAttempt := none, verifyPending := false }

/-! ## Concrete fixtures used by witnesses and counterexamples -/

/-- The sample configuration of the specification's motion-light scenario. -/
def cfgM : MotionConfig := ⟨some "m1", some "l1", some 15⟩

/-- A running motion runner whose last observed state is `off`. -/
def sOff : MotionRunnerState := { freshMotion with lastMotionState := some "off" }

/-- A running motion runner whose last observed state is `on`. -/
def sOn : MotionRunnerState := { freshMotion with lastMotionState := some "on" }

/-- A failing motion poll (network error fetching the motion entity). -/
def failPollM : MPollInput := ⟨.err "network", true⟩

/-- A daytime clock reading (outside the arming window). -/
def t0 : ATime := ⟨12, 0, 0⟩

/-- A night clock reading (inside the arming window). -/
def tNight : ATime := ⟨22, 0, 1000000⟩

/-- Arm-sequence inputs in which every external call succeeds. -/
def armInpOk : ArmInput := ⟨.ok "disarmed", .ok, true, .ok⟩

/-- A failing alarm poll (network error fetching the panel state). -/
def failPollA : APollInput := ⟨.err "network", armInpOk⟩

/-- A successful alarm poll observing `disarmed`, with a fully successful
arm sequence. -/
def armOkPoll : APollInput := ⟨.ok "disarmed", armInpOk⟩

/-- A running alarm runner whose last observed panel state is `armed_away`. -/
def aArmed : AlarmRunnerState := { freshAlarm with lastAlarmState := some "armed_away" }

/-- The motion runner state after ten consecutive poll failures. -/
def m10 : MotionRunnerState :=
  { isRunning := true, timeoutPending := false, lastMotionState := none,
    stateHistory := List.replicate 10 ⟨"error", "motion_state_error"⟩,
    errorCount := 10, consecutiveSuccesses := 0 }

/-- The motion runner state after the terminal stop that follows ten
consecutive poll failures. -/
def m11 : MotionRunnerState := { m10 with isRunning := false }

/-- The alarm runner state after ten consecutive poll failures. -/
def a10 : AlarmRunnerState :=
  { isRunning := true, lastAlarmState := none,
    stateHistory := List.replicate 10 ⟨"fetch_error", "Failed to get alarm state: network"⟩,
    errorCount := 10, lastArmAttempt := none, verifyPending := false }

/-- The alarm runner state after the terminal stop that follows ten
consecutive poll failures. -/
def a11 : AlarmRunnerState := { a10 with isRunning := false }

/-- A running alarm runner observing `disarmed` with no arm attempt yet. -/
def aDisarmed : AlarmRunnerState := { freshAlarm with lastAlarmState := some "disarmed" }

/-- A running alarm runner observing `disarmed` whose last arm attempt was at
epoch 1000000 ms. -/
def aCooldown : AlarmRunnerState :=
  { freshAlarm with lastAlarmState := some "disarmed", lastArmAttempt := some 1000000 }

/-- A night clock reading one minute after `tNight` (cooldown still active). -/
def tNight2 : ATime := ⟨22, 1, 1060000⟩

end Roystervi

namespace Roystervi

/-- C3: the Scheduled-Window Runner's time predicate holds exactly on
minutes-since-midnight in [21*60, 24*60) ∪ [0, 7*60); in particular it is
true at 23:59, 00:00, 06:59 and false at 07:00, 20:59. -/
theorem C3_inWindow :
    (∀ hour minute : Nat, hour < 24 → minute < 60 →
      (isInArmingWindow hour minute = true ↔
        (21 * 60 ≤ hour * 60 + minute ∧ hour * 60 + minute < 24 * 60) ∨
          hour * 60 + minute < 7 * 60))
    ∧ isInArmingWindow 23 59 = true
    ∧ isInArmingWindow 0 0 = true
    ∧ isInArmingWindow 6 59 = true
    ∧ isInArmingWindow 7 0 = false
    ∧ isInArmingWindow 20 59 = false := by
  refine ⟨?_, by decide, by decide, by decide, by decide, by decide⟩
  intro hour minute hh hm
  simp only [isInArmingWindow]
  norm_num
  omega

/-- Witness for C3 at a concrete clock reading (22:30 is inside the window). -/
theorem C3_inWindow_witness :
    isInArmingWindow 22 30 = true := by
  exact (C3_inWindow.1 22 30 (by decide) (by decide)).mpr
    (Or.inl ⟨by decide, by decide⟩)

/-! ### Shared lemmas about the bounded history ring -/

theorem lastN_length_le (cap : Nat) (l : List α) : (lastN cap l).length ≤ cap := by
  simp only [lastN, List.length_drop]
  omega

theorem lastN_of_le {cap : Nat} {l : List α} (h : l.length ≤ cap) : lastN cap l = l := by
  simp [lastN, Nat.sub_eq_zero_of_le h]

theorem lastN_lastN_append (cap : Nat) (l es : List α) :
    lastN cap (lastN cap l ++ es) = lastN cap (l ++ es) := by
  unfold lastN
  rw [← List.drop_append_of_le_length (Nat.sub_le l.length cap), List.drop_drop]
  congr 1
  simp only [List.length_drop, List.length_append]
  omega

theorem foldl_lastN (cap : Nat) :
    ∀ (es l : List α),
      List.foldl (fun h e => lastN cap (h ++ [e])) (lastN cap l) es = lastN cap (l ++ es)
  | [], l => by simp
  | e :: es, l => by
    rw [List.foldl_cons]
    show List.foldl _ (lastN cap (lastN cap l ++ [e])) es = _
    rw [lastN_lastN_append cap l [e], foldl_lastN cap es (l ++ [e])]
    simp

@[simp] theorem addM_isRunning (s : MotionRunnerState) (a b : String) :
    (s.addStateHistory a b).isRunning = s.isRunning := rfl

@[simp] theorem addM_timeoutPending (s : MotionRunnerState) (a b : String) :
    (s.addStateHistory a b).timeoutPending = s.timeoutPending := rfl

@[simp] theorem addM_lastMotionState (s : MotionRunnerState) (a b : String) :
    (s.addStateHistory a b).lastMotionState = s.lastMotionState := rfl

@[simp] theorem addM_errorCount (s : MotionRunnerState) (a b : String) :
    (s.addStateHistory a b).errorCount = s.errorCount := rfl

@[simp] theorem addM_consecutiveSuccesses (s : MotionRunnerState) (a b : String) :
    (s.addStateHistory a b).consecutiveSuccesses = s.consecutiveSuccesses := rfl

theorem addM_hist (s : MotionRunnerState) (a b : String) :
    (s.addStateHistory a b).stateHistory = lastN 50 (s.stateHistory ++ [⟨a, b⟩]) := by
  simp only [MotionRunnerState.addStateHistory, lastN]
  split
  · rfl
  · next h => rw [Nat.sub_eq_zero_of_le (by omega), List.drop_zero]

theorem addM_hist_small (s : MotionRunnerState) (a b : String)
    (h : s.stateHistory.length < 50) :
    (s.addStateHistory a b).stateHistory = s.stateHistory ++ [⟨a, b⟩] := by
  rw [addM_hist]
  exact lastN_of_le (by simp; omega)

@[simp] theorem addA_isRunning (s : AlarmRunnerState) (a b : String) :
    (s.addStateHistory a b).isRunning = s.isRunning := rfl

@[simp] theorem addA_lastAlarmState (s : AlarmRunnerState) (a b : String) :
    (s.addStateHistory a b).lastAlarmState = s.lastAlarmState := rfl

@[simp] theorem addA_errorCount (s : AlarmRunnerState) (a b : String) :
    (s.addStateHistory a b).errorCount = s.errorCount := rfl

@[simp] theorem addA_lastArmAttempt (s : AlarmRunnerState) (a b : String) :
    (s.addStateHistory a b).lastArmAttempt = s.lastArmAttempt := rfl

@[simp] theorem addA_verifyPending (s : AlarmRunnerState) (a b : String) :
    (s.addStateHistory a b).verifyPending = s.verifyPending := rfl

theorem addA_hist (s : AlarmRunnerState) (a b : String) :
    (s.addStateHistory a b).stateHistory = lastN 100 (s.stateHistory ++ [⟨a, b⟩]) := by
  simp only [AlarmRunnerState.addStateHistory, lastN]
  split
  · rfl
  · next h => rw [Nat.sub_eq_zero_of_le (by omega), List.drop_zero]

theorem motion_fold_hist :
    ∀ (es : List MHistEntry) (s : MotionRunnerState),
      (List.foldl (fun t e => t.addStateHistory e.motionState e.action) s es).stateHistory
        = List.foldl (fun h e => lastN 50 (h ++ [e])) s.stateHistory es
  | [], _ => rfl
  | e :: es, s => by
    rw [List.foldl_cons, List.foldl_cons, motion_fold_hist es]
    congr 1
    exact addM_hist s e.motionState e.action

theorem alarm_fold_hist :
    ∀ (es : List AHistEntry) (s : AlarmRunnerState),
      (List.foldl (fun t e => t.addStateHistory e.action e.details) s es).stateHistory
        = List.foldl (fun h e => lastN 100 (h ++ [e])) s.stateHistory es
  | [], _ => rfl
  | e :: es, s => by
    rw [List.foldl_cons, List.foldl_cons, alarm_fold_hist es]
    congr 1
    exact addA_hist s e.action e.details

/-- C7: for both runner variants, any sequence of `addStateHistory` appends
starting from the fresh (empty) ring leaves exactly the most recent entries,
never more than the capacity (50 for the Edge-Triggered, 100 for the
Scheduled-Window runner); the evicted entries are the oldest ones. -/
theorem C7_history_ring :
    (∀ es : List MHistEntry,
      (List.foldl (fun t e => t.addStateHistory e.motionState e.action)
          freshMotion es).stateHistory = lastN 50 es ∧
      (List.foldl (fun t e => t.addStateHistory e.motionState e.action)
          freshMotion es).stateHistory.length ≤ 50)
    ∧ (∀ es : List AHistEntry,
      (List.foldl (fun t e => t.addStateHistory e.action e.details)
          freshAlarm es).stateHistory = lastN 100 es ∧
      (List.foldl (fun t e => t.addStateHistory e.action e.details)
          freshAlarm es).stateHistory.length ≤ 100) := by
  constructor
  · intro es
    have h := motion_fold_hist es freshMotion
    have h2 : List.foldl (fun h e => lastN 50 (h ++ [e]))
        freshMotion.stateHistory es = lastN 50 es := by
      have h3 := foldl_lastN (α := MHistEntry) 50 es []
      simpa using h3
    rw [h, h2]
    exact ⟨rfl, lastN_length_le 50 es⟩
  · intro es
    have h := alarm_fold_hist es freshAlarm
    have h2 : List.foldl (fun h e => lastN 100 (h ++ [e]))
        freshAlarm.stateHistory es = lastN 100 es := by
      have h3 := foldl_lastN (α := AHistEntry) 100 es []
      simpa using h3
    rw [h, h2]
    exact ⟨rfl, lastN_length_le 100 es⟩

/-! ### Branch characterizations of `checkMotionState` -/

theorem stepM_guard (cfg : MotionConfig) (s : MotionRunnerState) (inp : MPollInput)
    (hg : maxErrors ≤ s.errorCount) :
    checkMotionState cfg s inp =
      ((s.stopM).1,
       ⟨[], ⟨"error", "Automation stopped due to " ++ toString s.errorCount ++
          " consecutive errors"⟩ :: (s.stopM).2, [], 0⟩) := by
  simp only [checkMotionState]
  rw [if_pos hg]

theorem stepM_fail (cfg : MotionConfig) (s : MotionRunnerState) (inp : MPollInput)
    (m me le : String) (hme : cfg.motion_entity = some me)
    (hle : cfg.light_entity = some le) (hg : s.errorCount < maxErrors)
    (hf : inp.fetch = FetchResult.err m) :
    checkMotionState cfg s inp =
      (({ s with
            errorCount := s.errorCount + 1,
            consecutiveSuccesses := 0 } : MotionRunnerState).addStateHistory
          "error" "motion_state_error",
       ⟨[],
        if s.errorCount + 1 = 1 ∨ (s.errorCount + 1) % 5 = 0 then
          [⟨"error", "Failed to get motion state: " ++ m⟩]
        else [], [], 0⟩) := by
  obtain ⟨cme, cle, cds⟩ := cfg
  obtain rfl : cme = some me := hme
  obtain rfl : cle = some le := hle
  obtain ⟨f, aok⟩ := inp
  obtain rfl : f = FetchResult.err m := hf
  obtain ⟨r, tp, lms, hist, ec, cs⟩ := s
  simp only [checkMotionState]
  rw [if_neg (Nat.not_le.mpr hg)]

theorem stepM_first (cfg : MotionConfig) (s : MotionRunnerState) (inp : MPollInput)
    (v me le : String) (hme : cfg.motion_entity = some me)
    (hle : cfg.light_entity = some le) (hg : s.errorCount < maxErrors)
    (hlast : s.lastMotionState = none) (hf : inp.fetch = FetchResult.ok v) :
    checkMotionState cfg s inp =
      (({ s with
            errorCount := 0,
            consecutiveSuccesses := s.consecutiveSuccesses + 1,
            lastMotionState := some v } : MotionRunnerState).addStateHistory
          v "initialized",
       MOut.empty) := by
  obtain ⟨cme, cle, cds⟩ := cfg
  obtain rfl : cme = some me := hme
  obtain rfl : cle = some le := hle
  obtain ⟨f, aok⟩ := inp
  obtain rfl : f = FetchResult.ok v := hf
  obtain ⟨r, tp, lms, hist, ec, cs⟩ := s
  obtain rfl : lms = none := hlast
  simp only [checkMotionState]
  rw [if_neg (Nat.not_le.mpr hg)]

theorem stepM_same (cfg : MotionConfig) (s : MotionRunnerState) (inp : MPollInput)
    (v me le : String) (hme : cfg.motion_entity = some me)
    (hle : cfg.light_entity = some le) (hg : s.errorCount < maxErrors)
    (hlast : s.lastMotionState = some v) (hf : inp.fetch = FetchResult.ok v) :
    checkMotionState cfg s inp =
      ({ s with
          errorCount := 0,
          consecutiveSuccesses := s.consecutiveSuccesses + 1 }, MOut.empty) := by
  obtain ⟨cme, cle, cds⟩ := cfg
  obtain rfl : cme = some me := hme
  obtain rfl : cle = some le := hle
  obtain ⟨f, aok⟩ := inp
  obtain rfl : f = FetchResult.ok v := hf
  obtain ⟨r, tp, lms, hist, ec, cs⟩ := s
  obtain rfl : lms = some v := hlast
  simp only [checkMotionState]
  rw [if_neg (Nat.not_le.mpr hg), if_pos trivial]

theorem stepM_onOff (cfg : MotionConfig) (s : MotionRunnerState) (inp : MPollInput)
    (me le : String) (hme : cfg.motion_entity = some me)
    (hle : cfg.light_entity = some le) (hg : s.errorCount < maxErrors)
    (hlast : s.lastMotionState = some "on") (hf : inp.fetch = FetchResult.ok "off") :
    checkMotionState cfg s inp =
      ({ ({ s with
            errorCount := 0,
            consecutiveSuccesses := s.consecutiveSuccesses + 1 } :
            MotionRunnerState).addStateHistory "off" "countdown_started" with
          timeoutPending := true,
          lastMotionState := some "off" },
       ⟨[],
        [⟨"triggered", "Motion stopped - starting " ++
          toString (effectiveDelay cfg.delay_seconds) ++ "s countdown"⟩],
        [effectiveDelay cfg.delay_seconds], 0⟩) := by
  obtain ⟨cme, cle, cds⟩ := cfg
  obtain rfl : cme = some me := hme
  obtain rfl : cle = some le := hle
  obtain ⟨f, aok⟩ := inp
  obtain rfl : f = FetchResult.ok "off" := hf
  obtain ⟨r, tp, lms, hist, ec, cs⟩ := s
  obtain rfl : lms = some "on" := hlast
  simp only [checkMotionState]
  rw [if_neg (Nat.not_le.mpr hg)]
  simp

theorem stepM_offOn (cfg : MotionConfig) (s : MotionRunnerState) (inp : MPollInput)
    (me le : String) (hme : cfg.motion_entity = some me)
    (hle : cfg.light_entity = some le) (hg : s.errorCount < maxErrors)
    (hlast : s.lastMotionState = some "off") (hf : inp.fetch = FetchResult.ok "on") :
    (checkMotionState cfg s inp).1.timeoutPending = false ∧
    (checkMotionState cfg s inp).1.errorCount = 0 ∧
    (checkMotionState cfg s inp).1.isRunning = s.isRunning ∧
    (checkMotionState cfg s inp).1.lastMotionState = some "on" ∧
    (checkMotionState cfg s inp).2.actions = [MAction.turnOn le] ∧
    (checkMotionState cfg s inp).2.sched = [] ∧
    (checkMotionState cfg s inp).2.trig = 1 := by
  obtain ⟨cme, cle, cds⟩ := cfg
  obtain rfl : cme = some me := hme
  obtain rfl : cle = some le := hle
  obtain ⟨f, aok⟩ := inp
  obtain rfl : f = FetchResult.ok "on" := hf
  obtain ⟨r, tp, lms, hist, ec, cs⟩ := s
  obtain rfl : lms = some "off" := hlast
  simp only [checkMotionState]
  rw [if_neg (Nat.not_le.mpr hg)]
  cases tp <;> cases aok <;> simp

theorem stepM_offOn_hist (cfg : MotionConfig) (s : MotionRunnerState)
    (inp : MPollInput) (me le : String) (hme : cfg.motion_entity = some me)
    (hle : cfg.light_entity = some le) (hg : s.errorCount < maxErrors)
    (hlast : s.lastMotionState = some "off") (hf : inp.fetch = FetchResult.ok "on")
    (hpend : s.timeoutPending = true) (hlen : s.stateHistory.length ≤ 40) :
    (checkMotionState cfg s inp).1.stateHistory =
      s.stateHistory ++ [⟨"on", "motion_detected"⟩, ⟨"on", "countdown_cancelled"⟩,
        ⟨"on", if inp.actionOk then "light_turned_on" else "light_error"⟩] := by
  obtain ⟨cme, cle, cds⟩ := cfg
  obtain rfl : cme = some me := hme
  obtain rfl : cle = some le := hle
  obtain ⟨f, aok⟩ := inp
  obtain rfl : f = FetchResult.ok "on" := hf
  obtain ⟨r, tp, lms, hist, ec, cs⟩ := s
  obtain rfl : lms = some "off" := hlast
  obtain rfl : tp = true := hpend
  replace hlen : hist.length ≤ 40 := hlen
  cases aok <;>
  · simp only [checkMotionState, addM_timeoutPending, and_self, String.reduceEq,
      reduceCtorEq, reduceIte]
    rw [if_neg (Nat.not_le.mpr hg)]
    simp only [addM_hist]
    rw [lastN_lastN_append, List.append_assoc, lastN_lastN_append,
      lastN_of_le (by simp; omega)]
    simp

/-! ### The recurring poll loop of the motion runner -/

theorem MOut_empty_app (o : MOut) : MOut.empty.app o = o := by
  cases o; simp [MOut.app, MOut.empty]

theorem MOut_app_empty (o : MOut) : o.app MOut.empty = o := by
  cases o; simp [MOut.app, MOut.empty]

theorem runM_stopped (cfg : MotionConfig) (s : MotionRunnerState)
    (inps : List MPollInput) (h : s.isRunning = false) :
    runM cfg s inps = (s, MOut.empty) := by
  cases inps with
  | nil => rfl
  | cons i is => simp [runM, h]

theorem runM_same (cfg : MotionConfig) (v me le : String)
    (hme : cfg.motion_entity = some me) (hle : cfg.light_entity = some le) :
    ∀ (inps : List MPollInput) (s : MotionRunnerState),
      s.lastMotionState = some v →
      (∀ i ∈ inps, i.fetch = FetchResult.ok v) →
      (runM cfg s inps).1.lastMotionState = some v ∧
      (runM cfg s inps).1.stateHistory = s.stateHistory ∧
      (runM cfg s inps).2.actions = [] ∧
      (runM cfg s inps).2.sched = [] ∧
      (runM cfg s inps).2.trig = 0
  | [], s, hlast, _ => by simp [runM, hlast, MOut.empty]
  | i :: is, s, hlast, hall => by
    simp only [runM]
    by_cases hr : s.isRunning = true
    · rw [if_pos hr]
      by_cases hgg : maxErrors ≤ s.errorCount
      · have hstop : s.stopM = ({ s with isRunning := false, timeoutPending := false },
            [⟨"stopped", "Automation stopped"⟩]) := by
          simp [MotionRunnerState.stopM, hr]
        rw [stepM_guard cfg s i hgg, hstop]
        rw [runM_stopped cfg _ is rfl]
        simp [MOut.app, MOut.empty, hlast]
      · have hf := hall i (List.mem_cons_self i is)
        rw [stepM_same cfg s i v me le hme hle (Nat.lt_of_not_le hgg) hlast hf]
        have ih := runM_same cfg v me le hme hle is
          { s with errorCount := 0, consecutiveSuccesses := s.consecutiveSuccesses + 1 }
          hlast (fun j hj => hall j (List.mem_cons_of_mem i hj))
        rw [MOut_empty_app]
        exact ⟨ih.1, ih.2.1, ih.2.2.1, ih.2.2.2.1, ih.2.2.2.2⟩
    · rw [if_neg hr]
      simp [hlast, MOut.empty]

/-- C1: for the Edge-Triggered Runner, polls whose fetched motion state
equals `lastObservedState` invoke no action, schedule nothing, increment no
trigger count and write no history entry — over whole sequences of such
polls; and a first successful poll from `lastObservedState = null` records
the observed value without invoking any action or logging any event. -/
theorem C1_edge_only_firing :
    (∀ (cfg : MotionConfig) (s : MotionRunnerState) (v me le : String)
        (inps : List MPollInput),
      cfg.motion_entity = some me → cfg.light_entity = some le →
      s.lastMotionState = some v →
      (∀ i ∈ inps, i.fetch = FetchResult.ok v) →
      (runM cfg s inps).1.lastMotionState = some v ∧
      (runM cfg s inps).1.stateHistory = s.stateHistory ∧
      (runM cfg s inps).2.actions = [] ∧
      (runM cfg s inps).2.sched = [] ∧
      (runM cfg s inps).2.trig = 0)
    ∧ (∀ (cfg : MotionConfig) (s : MotionRunnerState) (v me le : String)
        (inp : MPollInput),
      cfg.motion_entity = some me → cfg.light_entity = some le →
      s.errorCount < maxErrors → s.lastMotionState = none →
      inp.fetch = FetchResult.ok v →
      (checkMotionState cfg s inp).1.lastMotionState = some v ∧
      (checkMotionState cfg s inp).2 = MOut.empty) := by
  constructor
  · intro cfg s v me le inps hme hle hlast hall
    exact runM_same cfg v me le hme hle inps s hlast hall
  · intro cfg s v me le inp hme hle hg hlast hf
    rw [stepM_first cfg s inp v me le hme hle hg hlast hf]
    exact ⟨rfl, rfl⟩

/-- Witness for C1: two identical `off` polls from an `off` state invoke no
action, and a first poll from the fresh state records `off` firing nothing. -/
theorem C1_edge_only_firing_witness :
    (runM cfgM sOff [⟨FetchResult.ok "off", true⟩, ⟨FetchResult.ok "off", true⟩]).2.actions = []
    ∧ (checkMotionState cfgM freshMotion ⟨FetchResult.ok "off", true⟩).1.lastMotionState
        = some "off" := by
  constructor
  · exact (C1_edge_only_firing.1 cfgM sOff "off" "m1" "l1" _ rfl rfl rfl (by decide)).2.2.1
  · exact (C1_edge_only_firing.2 cfgM freshMotion "off" "m1" "l1" _ rfl rfl
      (by decide) rfl rfl).1

/-- C2: an on→off poll schedules a deferred turn-off after the configured
delay (default 15 s) without invoking any immediate action; at fire time the
turn-off is invoked exactly when the re-queried motion state is `off`; when
motion has returned, no turn-off fires and `lastObservedState` adopts the
re-queried value; and an off→on poll while a turn-off is pending clears the
pending timer and records a `countdown_cancelled` history entry. -/
theorem C2_deferred_turnoff :
    (∀ (cfg : MotionConfig) (s : MotionRunnerState) (inp : MPollInput) (me le : String),
      cfg.motion_entity = some me → cfg.light_entity = some le →
      s.errorCount < maxErrors → s.lastMotionState = some "on" →
      inp.fetch = FetchResult.ok "off" →
      (checkMotionState cfg s inp).1.timeoutPending = true ∧
      (checkMotionState cfg s inp).2.sched = [effectiveDelay cfg.delay_seconds] ∧
      (checkMotionState cfg s inp).2.actions = [] ∧
      (checkMotionState cfg s inp).1.stateHistory =
        lastN 50 (s.stateHistory ++ [⟨"off", "countdown_started"⟩]))
    ∧ effectiveDelay none = 15
    ∧ (∀ (le : String) (d : Nat) (s : MotionRunnerState) (inp : MPollInput),
      ((countdownFire le d s inp).2.actions ≠ [] ↔ inp.fetch = FetchResult.ok "off") ∧
      (inp.fetch = FetchResult.ok "off" →
        (countdownFire le d s inp).2.actions = [MAction.turnOff le]))
    ∧ (∀ (le : String) (d : Nat) (s : MotionRunnerState) (inp : MPollInput) (v : String),
      inp.fetch = FetchResult.ok v → v ≠ "off" →
      (countdownFire le d s inp).2.actions = [] ∧
      (countdownFire le d s inp).1.lastMotionState = some v ∧
      (countdownFire le d s inp).1.timeoutPending = false)
    ∧ (∀ (cfg : MotionConfig) (s : MotionRunnerState) (inp : MPollInput) (me le : String),
      cfg.motion_entity = some me → cfg.light_entity = some le →
      s.errorCount < maxErrors → s.lastMotionState = some "off" →
      inp.fetch = FetchResult.ok "on" → s.timeoutPending = true →
      s.stateHistory.length ≤ 40 →
      (checkMotionState cfg s inp).1.timeoutPending = false ∧
      (checkMotionState cfg s inp).1.stateHistory =
        s.stateHistory ++ [⟨"on", "motion_detected"⟩, ⟨"on", "countdown_cancelled"⟩,
          ⟨"on", if inp.actionOk then "light_turned_on" else "light_error"⟩]) := by
  refine ⟨?_, rfl, ?_, ?_, ?_⟩
  · intro cfg s inp me le hme hle hg hlast hf
    rw [stepM_onOff cfg s inp me le hme hle hg hlast hf]
    exact ⟨rfl, rfl, rfl, addM_hist _ _ _⟩
  · intro le d s inp
    obtain ⟨f, aok⟩ := inp
    cases f with
    | ok st =>
      by_cases hst : st = "off"
      · subst hst
        cases aok <;> simp [countdownFire]
      · cases aok <;> simp [countdownFire, hst]
    | err m => simp [countdownFire]
  · intro le d s inp v hf hv
    obtain ⟨f, aok⟩ := inp
    obtain rfl : f = FetchResult.ok v := hf
    cases aok <;> simp [countdownFire, hv]
  · intro cfg s inp me le hme hle hg hlast hf hpend hlen
    exact ⟨(stepM_offOn cfg s inp me le hme hle hg hlast hf).1,
      stepM_offOn_hist cfg s inp me le hme hle hg hlast hf hpend hlen⟩

/-- Witness for C2 at concrete inputs: an on→off poll schedules the default
15 s countdown; a fire-time re-query of `off` invokes the turn-off; a
pending countdown is cleared by an off→on poll. -/
theorem C2_deferred_turnoff_witness :
    (checkMotionState cfgM sOn ⟨FetchResult.ok "off", true⟩).2.sched
        = [effectiveDelay cfgM.delay_seconds]
    ∧ (countdownFire "l1" 15 freshMotion ⟨FetchResult.ok "off", true⟩).2.actions
        = [MAction.turnOff "l1"]
    ∧ (checkMotionState cfgM
        { freshMotion with lastMotionState := some "off", timeoutPending := true }
        ⟨FetchResult.ok "on", true⟩).1.timeoutPending = false := by
  refine ⟨?_, ?_, ?_⟩
  · exact (C2_deferred_turnoff.1 cfgM sOn ⟨FetchResult.ok "off", true⟩ "m1" "l1"
      rfl rfl (by decide) rfl rfl).2.1
  · exact (C2_deferred_turnoff.2.2.1 "l1" 15 freshMotion
      ⟨FetchResult.ok "off", true⟩).2 rfl
  · exact (C2_deferred_turnoff.2.2.2.2 cfgM
      { freshMotion with lastMotionState := some "off", timeoutPending := true }
      ⟨FetchResult.ok "on", true⟩ "m1" "l1" rfl rfl (by decide) rfl rfl rfl
      (by decide)).1

/-- C10: for the Edge-Triggered Runner, a failing light action (turn-on on
an off→on transition, or turn-off in the deferred countdown callback) is
caught locally: whatever the action outcome, a poll with a successful fetch
leaves the consecutive-error counter at 0 (the deferred callback leaves it
untouched) and never flips `isRunning`, while only a failing motion-state
fetch increments the counter. -/
theorem C10_action_failure_isolated :
    (∀ (cfg : MotionConfig) (s : MotionRunnerState) (inp : MPollInput) (me le : String),
      cfg.motion_entity = some me → cfg.light_entity = some le →
      s.errorCount < maxErrors → s.lastMotionState = some "off" →
      inp.fetch = FetchResult.ok "on" →
      (checkMotionState cfg s inp).1.errorCount = 0 ∧
      (checkMotionState cfg s inp).1.isRunning = s.isRunning ∧
      (checkMotionState cfg s inp).2.actions = [MAction.turnOn le])
    ∧ (∀ (le : String) (d : Nat) (s : MotionRunnerState) (inp : MPollInput),
      inp.fetch = FetchResult.ok "off" →
      (countdownFire le d s inp).1.errorCount = s.errorCount ∧
      (countdownFire le d s inp).1.isRunning = s.isRunning ∧
      (countdownFire le d s inp).2.actions = [MAction.turnOff le])
    ∧ (∀ (cfg : MotionConfig) (s : MotionRunnerState) (inp : MPollInput)
        (m me le : String),
      cfg.motion_entity = some me → cfg.light_entity = some le →
      s.errorCount < maxErrors → inp.fetch = FetchResult.err m →
      (checkMotionState cfg s inp).1.errorCount = s.errorCount + 1 ∧
      (checkMotionState cfg s inp).1.isRunning = s.isRunning) := by
  refine ⟨?_, ?_, ?_⟩
  · intro cfg s inp me le hme hle hg hlast hf
    have h := stepM_offOn cfg s inp me le hme hle hg hlast hf
    exact ⟨h.2.1, h.2.2.1, h.2.2.2.2.1⟩
  · intro le d s inp hf
    obtain ⟨f, aok⟩ := inp
    obtain rfl : f = FetchResult.ok "off" := hf
    cases aok <;> simp [countdownFire]
  · intro cfg s inp m me le hme hle hg hf
    rw [stepM_fail cfg s inp m me le hme hle hg hf]
    exact ⟨rfl, rfl⟩

/-- Witness for C10: with the light call failing, the off→on poll keeps the
error counter at 0 and the deferred turn-off callback leaves it unchanged. -/
theorem C10_action_failure_isolated_witness :
    (checkMotionState cfgM sOff ⟨FetchResult.ok "on", false⟩).1.errorCount = 0
    ∧ (countdownFire "l1" 15 freshMotion ⟨FetchResult.ok "off", false⟩).1.errorCount
        = freshMotion.errorCount
    ∧ (checkMotionState cfgM freshMotion failPollM).1.errorCount
        = freshMotion.errorCount + 1 := by
  refine ⟨?_, ?_, ?_⟩
  · exact (C10_action_failure_isolated.1 cfgM sOff ⟨FetchResult.ok "on", false⟩
      "m1" "l1" rfl rfl (by decide) rfl rfl).1
  · exact (C10_action_failure_isolated.2.1 "l1" 15 freshMotion
      ⟨FetchResult.ok "off", false⟩ rfl).1
  · exact (C10_action_failure_isolated.2.2 cfgM freshMotion failPollM "network"
      "m1" "l1" rfl rfl (by decide) rfl).1

/-! ### The alarm runner: branch characterizations and the check loop -/

theorem AOut_empty_app (o : AOut) : AOut.empty.app o = o := by
  cases o; simp [AOut.app, AOut.empty]

theorem AOut_app_empty (o : AOut) : o.app AOut.empty = o := by
  cases o; simp [AOut.app, AOut.empty]

theorem runA_stopped (s : AlarmRunnerState) (steps : List (ATime × APollInput))
    (h : s.isRunning = false) :
    runA s steps = (s, AOut.empty) := by
  cases steps with
  | nil => rfl
  | cons i is => simp [runA, h]

theorem stepA_guard (s : AlarmRunnerState) (now : ATime) (inp : APollInput)
    (hg : maxErrors ≤ s.errorCount) :
    checkAndArm s now inp =
      ((s.stopA).1,
       ⟨[], ⟨"error", "Automation stopped due to " ++ toString s.errorCount ++
          " consecutive errors"⟩ :: (s.stopA).2, [], 0⟩) := by
  simp only [checkAndArm]
  rw [if_pos hg]

theorem stepA_fail (s : AlarmRunnerState) (now : ATime) (inp : APollInput)
    (m : String) (hg : s.errorCount < maxErrors)
    (hf : inp.fetch = FetchResult.err m) :
    checkAndArm s now inp =
      (({ s with errorCount := s.errorCount + 1 } : AlarmRunnerState).addStateHistory
          "fetch_error" ("Failed to get alarm state: " ++ m),
       ⟨[], [⟨"error", "Failed to get alarm state: " ++ m⟩], [], 0⟩) := by
  obtain ⟨f, armi⟩ := inp
  obtain rfl : f = FetchResult.err m := hf
  obtain ⟨r, las, hist, ec, laa, vp⟩ := s
  simp only [checkAndArm]
  rw [if_neg (Nat.not_le.mpr hg)]

@[simp] theorem armAlarm_trig (s : AlarmRunnerState) (i : ArmInput) :
    (armAlarmWithValidation s i).2.trig = 0 := by
  obtain ⟨pf, arm, dok, fb⟩ := i
  cases pf with
  | err m => simp [armAlarmWithValidation]
  | ok st =>
    by_cases hst : st = "disarmed"
    · subst hst
      cases arm <;> cases fb <;> cases dok <;>
        simp [armAlarmWithValidation, armSuccess]
    · simp [armAlarmWithValidation, hst]

@[simp] theorem armAlarm_armAttempts (s : AlarmRunnerState) (i : ArmInput) :
    (armAlarmWithValidation s i).2.armAttempts = [] := by
  obtain ⟨pf, arm, dok, fb⟩ := i
  cases pf with
  | err m => simp [armAlarmWithValidation]
  | ok st =>
    by_cases hst : st = "disarmed"
    · subst hst
      cases arm <;> cases fb <;> cases dok <;>
        simp [armAlarmWithValidation, armSuccess]
    · simp [armAlarmWithValidation, hst]

@[simp] theorem armAlarm_lastArmAttempt (s : AlarmRunnerState) (i : ArmInput) :
    (armAlarmWithValidation s i).1.lastArmAttempt = s.lastArmAttempt := by
  obtain ⟨pf, arm, dok, fb⟩ := i
  cases pf with
  | err m => simp [armAlarmWithValidation]
  | ok st =>
    by_cases hst : st = "disarmed"
    · subst hst
      cases arm <;> cases fb <;> cases dok <;>
        simp [armAlarmWithValidation, armSuccess]
    · simp [armAlarmWithValidation, hst]

@[simp] theorem armAlarm_isRunning (s : AlarmRunnerState) (i : ArmInput) :
    (armAlarmWithValidation s i).1.isRunning = s.isRunning := by
  obtain ⟨pf, arm, dok, fb⟩ := i
  cases pf with
  | err m => simp [armAlarmWithValidation]
  | ok st =>
    by_cases hst : st = "disarmed"
    · subst hst
      cases arm <;> cases fb <;> cases dok <;>
        simp [armAlarmWithValidation, armSuccess]
    · simp [armAlarmWithValidation, hst]

@[simp] theorem armAlarm_errorCount (s : AlarmRunnerState) (i : ArmInput) :
    (armAlarmWithValidation s i).1.errorCount = s.errorCount := by
  obtain ⟨pf, arm, dok, fb⟩ := i
  cases pf with
  | err m => simp [armAlarmWithValidation]
  | ok st =>
    by_cases hst : st = "disarmed"
    · subst hst
      cases arm <;> cases fb <;> cases dok <;>
        simp [armAlarmWithValidation, armSuccess]
    · simp [armAlarmWithValidation, hst]

@[simp] theorem armAlarm_lastAlarmState (s : AlarmRunnerState) (i : ArmInput) :
    (armAlarmWithValidation s i).1.lastAlarmState = s.lastAlarmState := by
  obtain ⟨pf, arm, dok, fb⟩ := i
  cases pf with
  | err m => simp [armAlarmWithValidation]
  | ok st =>
    by_cases hst : st = "disarmed"
    · subst hst
      cases arm <;> cases fb <;> cases dok <;>
        simp [armAlarmWithValidation, armSuccess]
    · simp [armAlarmWithValidation, hst]

theorem stepA_ok_proj (s : AlarmRunnerState) (now : ATime) (inp : APollInput)
    (v : String) (hg : s.errorCount < maxErrors)
    (hf : inp.fetch = FetchResult.ok v) :
    (checkAndArm s now inp).1.errorCount = 0 ∧
    (checkAndArm s now inp).1.isRunning = s.isRunning ∧
    (checkAndArm s now inp).1.lastAlarmState = some v := by
  obtain ⟨f, armi⟩ := inp
  obtain rfl : f = FetchResult.ok v := hf
  obtain ⟨r, las, hist, ec, laa, vp⟩ := s
  simp only [checkAndArm]
  rw [if_neg (Nat.not_le.mpr hg)]
  rcases las with _ | w
  · by_cases hw : isInArmingWindow now.hour now.minute = true ∧ v = "disarmed"
    · obtain ⟨hw1, hw2⟩ := hw
      subst hw2
      rcases laa with _ | t
      · simp [hw1, doArm]
      · by_cases hc : now.epochMs - t < armCooldown
        · simp [hw1, hc]
        · simp [hw1, hc, doArm]
    · simp [hw]
  · by_cases hwv : w = v
    · subst hwv
      by_cases hw : isInArmingWindow now.hour now.minute = true ∧ w = "disarmed"
      · obtain ⟨hw1, hw2⟩ := hw
        subst hw2
        rcases laa with _ | t
        · simp [hw1, doArm]
        · by_cases hc : now.epochMs - t < armCooldown
          · simp [hw1, hc]
          · simp [hw1, hc, doArm]
      · simp [hw]
    · by_cases hw : isInArmingWindow now.hour now.minute = true ∧ v = "disarmed"
      · obtain ⟨hw1, hw2⟩ := hw
        subst hw2
        rcases laa with _ | t
        · simp [hwv, hw1, doArm]
        · by_cases hc : now.epochMs - t < armCooldown
          · simp [hwv, hw1, hc]
          · simp [hwv, hw1, hc, doArm]
      · simp [hwv, hw]

theorem stepA_cooldown (s : AlarmRunnerState) (now : ATime) (inp : APollInput)
    (t : Int) (hg : s.errorCount < maxErrors)
    (hf : inp.fetch = FetchResult.ok "disarmed")
    (hlast : s.lastAlarmState = some "disarmed")
    (hw : isInArmingWindow now.hour now.minute = true)
    (hla : s.lastArmAttempt = some t)
    (hc : now.epochMs - t < armCooldown) :
    checkAndArm s now inp =
      (({ s with
            errorCount := 0,
            lastAlarmState := some "disarmed" } : AlarmRunnerState).addStateHistory
          "cooldown" ("Waiting " ++
            toString ((armCooldown - (now.epochMs - t) + 59999) / 60000) ++
            "m before next arm attempt"),
       ⟨[], [], [], 0⟩) := by
  obtain ⟨f, armi⟩ := inp
  obtain rfl : f = FetchResult.ok "disarmed" := hf
  obtain ⟨r, las, hist, ec, laa, vp⟩ := s
  obtain rfl : las = some "disarmed" := hlast
  obtain rfl : laa = some t := hla
  simp only [checkAndArm]
  rw [if_neg (Nat.not_le.mpr hg)]
  simp [hw, hc]

theorem stepA_arm (s : AlarmRunnerState) (now : ATime) (inp : APollInput)
    (hg : s.errorCount < maxErrors) (hf : inp.fetch = FetchResult.ok "disarmed")
    (hw : isInArmingWindow now.hour now.minute = true)
    (hready : s.lastArmAttempt = none ∨
      ∃ t, s.lastArmAttempt = some t ∧ armCooldown ≤ now.epochMs - t) :
    (checkAndArm s now inp).1.lastArmAttempt = some now.epochMs ∧
    (checkAndArm s now inp).2.armAttempts = [now.epochMs] ∧
    (checkAndArm s now inp).2.trig = 1 := by
  obtain ⟨f, armi⟩ := inp
  obtain rfl : f = FetchResult.ok "disarmed" := hf
  obtain ⟨r, las, hist, ec, laa, vp⟩ := s
  rcases hready with hla | ⟨t, hla, ht⟩
  · obtain rfl : laa = none := hla
    simp only [checkAndArm]
    rw [if_neg (Nat.not_le.mpr hg)]
    rcases las with _ | w
    · simp [hw, doArm]
    · by_cases hwv : w = "disarmed"
      · subst hwv
        simp [hw, doArm]
      · simp [hwv, hw, doArm]
  · obtain rfl : laa = some t := hla
    have hc : ¬ (now.epochMs - t < armCooldown) := by omega
    simp only [checkAndArm]
    rw [if_neg (Nat.not_le.mpr hg)]
    rcases las with _ | w
    · simp [hw, hc, doArm]
    · by_cases hwv : w = "disarmed"
      · subst hwv
        simp [hw, hc, doArm]
      · simp [hwv, hw, hc, doArm]

theorem stepA_ok_attempts (s : AlarmRunnerState) (now : ATime) (inp : APollInput)
    (v : String) (hg : s.errorCount < maxErrors)
    (hf : inp.fetch = FetchResult.ok v) :
    ((checkAndArm s now inp).2.armAttempts = [] ∧
      (checkAndArm s now inp).1.lastArmAttempt = s.lastArmAttempt)
    ∨ ((checkAndArm s now inp).2.armAttempts = [now.epochMs] ∧
      (checkAndArm s now inp).1.lastArmAttempt = some now.epochMs ∧
      ∀ t, s.lastArmAttempt = some t → armCooldown ≤ now.epochMs - t) := by
  obtain ⟨f, armi⟩ := inp
  obtain rfl : f = FetchResult.ok v := hf
  obtain ⟨r, las, hist, ec, laa, vp⟩ := s
  by_cases hw : isInArmingWindow now.hour now.minute = true ∧ v = "disarmed"
  · obtain ⟨hw1, hw2⟩ := hw
    subst hw2
    rcases laa with _ | t
    · refine Or.inr ⟨?_, ?_, ?_⟩
      · simp only [checkAndArm]
        rw [if_neg (Nat.not_le.mpr hg)]
        rcases las with _ | w
        · simp [hw1, doArm]
        · by_cases hwv : w = "disarmed"
          · subst hwv; simp [hw1, doArm]
          · simp [hwv, hw1, doArm]
      · simp only [checkAndArm]
        rw [if_neg (Nat.not_le.mpr hg)]
        rcases las with _ | w
        · simp [hw1, doArm]
        · by_cases hwv : w = "disarmed"
          · subst hwv; simp [hw1, doArm]
          · simp [hwv, hw1, doArm]
      · intro t ht
        exact absurd ht (by simp)
    · by_cases hc : now.epochMs - t < armCooldown
      · refine Or.inl ⟨?_, ?_⟩
        · simp only [checkAndArm]
          rw [if_neg (Nat.not_le.mpr hg)]
          rcases las with _ | w
          · simp [hw1, hc]
          · by_cases hwv : w = "disarmed"
            · subst hwv; simp [hw1, hc]
            · simp [hwv, hw1, hc]
        · simp only [checkAndArm]
          rw [if_neg (Nat.not_le.mpr hg)]
          rcases las with _ | w
          · simp [hw1, hc]
          · by_cases hwv : w = "disarmed"
            · subst hwv; simp [hw1, hc]
            · simp [hwv, hw1, hc]
      · refine Or.inr ⟨?_, ?_, ?_⟩
        · simp only [checkAndArm]
          rw [if_neg (Nat.not_le.mpr hg)]
          rcases las with _ | w
          · simp [hw1, hc, doArm]
          · by_cases hwv : w = "disarmed"
            · subst hwv; simp [hw1, hc, doArm]
            · simp [hwv, hw1, hc, doArm]
        · simp only [checkAndArm]
          rw [if_neg (Nat.not_le.mpr hg)]
          rcases las with _ | w
          · simp [hw1, hc, doArm]
          · by_cases hwv : w = "disarmed"
            · subst hwv; simp [hw1, hc, doArm]
            · simp [hwv, hw1, hc, doArm]
        · intro t2 ht2
          have : t2 = t := by
            have := ht2
            simp only [Option.some.injEq] at this
            omega
          subst this
          omega
  · refine Or.inl ⟨?_, ?_⟩
    · simp only [checkAndArm]
      rw [if_neg (Nat.not_le.mpr hg)]
      rcases las with _ | w
      · simp [hw]
      · by_cases hwv : w = v
        · subst hwv; simp [hw]
        · simp [hwv, hw]
    · simp only [checkAndArm]
      rw [if_neg (Nat.not_le.mpr hg)]
      rcases las with _ | w
      · simp [hw]
      · by_cases hwv : w = v
        · subst hwv; simp [hw]
        · simp [hwv, hw]

theorem checkAndArm_cases (s : AlarmRunnerState) (now : ATime) (inp : APollInput) :
    ((checkAndArm s now inp).2.armAttempts = [] ∧
      (checkAndArm s now inp).1.lastArmAttempt = s.lastArmAttempt)
    ∨ ((checkAndArm s now inp).2.armAttempts = [now.epochMs] ∧
      (checkAndArm s now inp).1.lastArmAttempt = some now.epochMs ∧
      ∀ t, s.lastArmAttempt = some t → armCooldown ≤ now.epochMs - t) := by
  by_cases hg : maxErrors ≤ s.errorCount
  · left
    rw [stepA_guard s now inp hg]
    refine ⟨rfl, ?_⟩
    simp only [AlarmRunnerState.stopA]
    split <;> rfl
  · cases hff : inp.fetch with
    | ok v => exact stepA_ok_attempts s now inp v (Nat.lt_of_not_le hg) hff
    | err m =>
      left
      rw [stepA_fail s now inp m (Nat.lt_of_not_le hg) hff]
      exact ⟨rfl, rfl⟩

theorem stepA_ok_trig (s : AlarmRunnerState) (now : ATime) (inp : APollInput)
    (v : String) (hg : s.errorCount < maxErrors)
    (hf : inp.fetch = FetchResult.ok v) :
    ((checkAndArm s now inp).2.trig = 0 ↔
      isInArmingWindow now.hour now.minute = true ∧ v = "disarmed" ∧
        ∃ t, s.lastArmAttempt = some t ∧ now.epochMs - t < armCooldown) := by
  obtain ⟨f, armi⟩ := inp
  obtain rfl : f = FetchResult.ok v := hf
  obtain ⟨r, las, hist, ec, laa, vp⟩ := s
  by_cases hw : isInArmingWindow now.hour now.minute = true ∧ v = "disarmed"
  · obtain ⟨hw1, hw2⟩ := hw
    subst hw2
    rcases laa with _ | t
    · refine iff_of_false ?_ ?_
      · simp only [checkAndArm]
        rw [if_neg (Nat.not_le.mpr hg)]
        rcases las with _ | w
        · simp [hw1, doArm]
        · by_cases hwv : w = "disarmed"
          · subst hwv; simp [hw1, doArm]
          · simp [hwv, hw1, doArm]
      · rintro ⟨-, -, t, ht, -⟩
        exact absurd ht (by simp)
    · by_cases hc : now.epochMs - t < armCooldown
      · refine iff_of_true ?_ ⟨hw1, rfl, t, rfl, hc⟩
        simp only [checkAndArm]
        rw [if_neg (Nat.not_le.mpr hg)]
        rcases las with _ | w
        · simp [hw1, hc]
        · by_cases hwv : w = "disarmed"
          · subst hwv; simp [hw1, hc]
          · simp [hwv, hw1, hc]
      · refine iff_of_false ?_ ?_
        · simp only [checkAndArm]
          rw [if_neg (Nat.not_le.mpr hg)]
          rcases las with _ | w
          · simp [hw1, hc, doArm]
          · by_cases hwv : w = "disarmed"
            · subst hwv; simp [hw1, hc, doArm]
            · simp [hwv, hw1, hc, doArm]
        · rintro ⟨-, -, t2, ht2, hc2⟩
          simp only [Option.some.injEq] at ht2
          subst ht2
          exact hc hc2
  · refine iff_of_false ?_ ?_
    · simp only [checkAndArm]
      rw [if_neg (Nat.not_le.mpr hg)]
      rcases las with _ | w
      · simp [hw]
      · by_cases hwv : w = v
        · subst hwv; simp [hw]
        · simp [hwv, hw]
    · rintro ⟨h1, h2, -⟩
      exact hw ⟨h1, h2⟩

theorem stepM_ok_errorCount (cfg : MotionConfig) (s : MotionRunnerState)
    (inp : MPollInput) (v me le : String) (hme : cfg.motion_entity = some me)
    (hle : cfg.light_entity = some le) (hg : s.errorCount < maxErrors)
    (hf : inp.fetch = FetchResult.ok v) :
    (checkMotionState cfg s inp).1.errorCount = 0 := by
  obtain ⟨cme, cle, cds⟩ := cfg
  obtain rfl : cme = some me := hme
  obtain rfl : cle = some le := hle
  obtain ⟨f, aok⟩ := inp
  obtain rfl : f = FetchResult.ok v := hf
  obtain ⟨r, tp, lms, hist, ec, cs⟩ := s
  simp only [checkMotionState]
  rw [if_neg (Nat.not_le.mpr hg)]
  rcases lms with _ | w
  · simp
  · by_cases hwv : w = v
    · subst hwv; simp
    · by_cases h1 : w = "off" ∧ v = "on"
      · obtain ⟨h1a, h1b⟩ := h1
        subst h1a
        subst h1b
        cases tp <;> cases aok <;> simp
      · by_cases h2 : w = "on" ∧ v = "off"
        · obtain ⟨h2a, h2b⟩ := h2
          subst h2a
          subst h2b
          simp
        · simp [hwv, h1, h2]

theorem runA_chain :
    ∀ (steps : List (ATime × APollInput)) (s : AlarmRunnerState),
      List.Chain' (fun a b => armCooldown ≤ b - a)
        (s.lastArmAttempt.toList ++ (runA s steps).2.armAttempts)
  | [], s => by
    rcases h : s.lastArmAttempt with _ | t <;> simp [runA, AOut.empty, h]
  | st :: steps, s => by
    by_cases hr : s.isRunning = true
    · have ih := runA_chain steps (checkAndArm s st.1 st.2).1
      rcases checkAndArm_cases s st.1 st.2 with ⟨h1, h2⟩ | ⟨h1, h2, h3⟩
      · rw [h2] at ih
        simp only [runA]
        rw [if_pos hr]
        simpa [AOut.app, h1] using ih
      · rw [h2] at ih
        have ih2 : List.Chain' (fun a b => armCooldown ≤ b - a)
            (st.1.epochMs :: (runA (checkAndArm s st.1 st.2).1 steps).2.armAttempts) := by
          simpa using ih
        rcases hla : s.lastArmAttempt with _ | t
        · simp only [runA]
          rw [if_pos hr]
          simpa [AOut.app, h1, hla] using ih2
        · have hR : armCooldown ≤ st.1.epochMs - t := h3 t hla
          simp only [runA]
          rw [if_pos hr]
          simp only [AOut.app, h1, hla, Option.toList_some, List.singleton_append,
            List.cons_append, List.nil_append]
          exact List.chain'_cons.mpr ⟨hR, ih2⟩
    · have hrr : s.isRunning = false := by
        cases hb : s.isRunning
        · rfl
        · exact absurd hb hr
      rw [runA_stopped s (st :: steps) hrr]
      rcases h : s.lastArmAttempt with _ | t <;> simp [AOut.empty, h]

/-- C4: for both runner variants, a failed poll increments the
consecutive-error counter without touching the observed state or stopping
the runner, a successful poll resets the counter to 0, and after ten
consecutive poll failures the next timer callback emits exactly one terminal
error event and stops the runner, after which no poll is processed (so an
11th consecutive failure never occurs). -/
theorem C4_ten_strikes :
    (∀ (cfg : MotionConfig) (s : MotionRunnerState) (inp : MPollInput)
        (m me le : String),
      cfg.motion_entity = some me → cfg.light_entity = some le →
      s.errorCount < maxErrors → inp.fetch = FetchResult.err m →
      (checkMotionState cfg s inp).1.errorCount = s.errorCount + 1 ∧
      (checkMotionState cfg s inp).1.lastMotionState = s.lastMotionState ∧
      (checkMotionState cfg s inp).1.isRunning = s.isRunning)
    ∧ (∀ (cfg : MotionConfig) (s : MotionRunnerState) (inp : MPollInput)
        (v me le : String),
      cfg.motion_entity = some me → cfg.light_entity = some le →
      s.errorCount < maxErrors → inp.fetch = FetchResult.ok v →
      (checkMotionState cfg s inp).1.errorCount = 0)
    ∧ (∀ (s : AlarmRunnerState) (now : ATime) (inp : APollInput) (m : String),
      s.errorCount < maxErrors → inp.fetch = FetchResult.err m →
      (checkAndArm s now inp).1.errorCount = s.errorCount + 1 ∧
      (checkAndArm s now inp).1.lastAlarmState = s.lastAlarmState ∧
      (checkAndArm s now inp).1.isRunning = s.isRunning)
    ∧ (∀ (s : AlarmRunnerState) (now : ATime) (inp : APollInput) (v : String),
      s.errorCount < maxErrors → inp.fetch = FetchResult.ok v →
      (checkAndArm s now inp).1.errorCount = 0)
    ∧ runM cfgM freshMotion (List.replicate 10 failPollM) =
        (m10, ⟨[], List.replicate 3 ⟨"error", "Failed to get motion state: network"⟩,
          [], 0⟩)
    ∧ (∀ (inp : MPollInput) (inps : List MPollInput),
      runM cfgM m10 (inp :: inps) =
        (m11, ⟨[], [⟨"error", "Automation stopped due to 10 consecutive errors"⟩,
          ⟨"stopped", "Automation stopped"⟩], [], 0⟩))
    ∧ runA freshAlarm (List.replicate 10 (t0, failPollA)) =
        (a10, ⟨[], List.replicate 10 ⟨"error", "Failed to get alarm state: network"⟩,
          [], 0⟩)
    ∧ (∀ (p : ATime × APollInput) (ps : List (ATime × APollInput)),
      runA a10 (p :: ps) =
        (a11, ⟨[], [⟨"error", "Automation stopped due to 10 consecutive errors"⟩,
          ⟨"stopped", "Alarm auto-arm automation stopped"⟩], [], 0⟩)) := by
  refine ⟨?_, ?_, ?_, ?_, ?_, ?_, ?_, ?_⟩
  · intro cfg s inp m me le hme hle hg hf
    rw [stepM_fail cfg s inp m me le hme hle hg hf]
    exact ⟨rfl, rfl, rfl⟩
  · intro cfg s inp v me le hme hle hg hf
    exact stepM_ok_errorCount cfg s inp v me le hme hle hg hf
  · intro s now inp m hg hf
    rw [stepA_fail s now inp m hg hf]
    exact ⟨rfl, rfl, rfl⟩
  · intro s now inp v hg hf
    exact (stepA_ok_proj s now inp v hg hf).1
  · decide
  · intro inp inps
    have hstep : checkMotionState cfgM m10 inp =
        (m11, ⟨[], [⟨"error", "Automation stopped due to 10 consecutive errors"⟩,
          ⟨"stopped", "Automation stopped"⟩], [], 0⟩) := by
      rw [stepM_guard cfgM m10 inp (by decide)]
      decide
    simp only [runM]
    rw [if_pos (show m10.isRunning = true from rfl)]
    simp only [hstep]
    rw [runM_stopped cfgM m11 inps rfl]
    simp [MOut.app, MOut.empty]
  · decide
  · intro p ps
    have hstep : checkAndArm a10 p.1 p.2 =
        (a11, ⟨[], [⟨"error", "Automation stopped due to 10 consecutive errors"⟩,
          ⟨"stopped", "Alarm auto-arm automation stopped"⟩], [], 0⟩) := by
      rw [stepA_guard a10 p.1 p.2 (by decide)]
      decide
    simp only [runA]
    rw [if_pos (show a10.isRunning = true from rfl)]
    simp only [hstep]
    rw [runA_stopped a11 ps rfl]
    simp [AOut.app, AOut.empty]

/-- Witness for C4 at concrete inputs: one failing and one succeeding poll
of each runner, and the terminal stop right after ten failures. -/
theorem C4_ten_strikes_witness :
    (checkMotionState cfgM freshMotion failPollM).1.errorCount
        = freshMotion.errorCount + 1
    ∧ (checkMotionState cfgM sOff ⟨FetchResult.ok "off", true⟩).1.errorCount = 0
    ∧ (checkAndArm freshAlarm t0 failPollA).1.errorCount
        = freshAlarm.errorCount + 1
    ∧ (checkAndArm freshAlarm t0 armOkPoll).1.errorCount = 0
    ∧ runM cfgM m10 [failPollM] =
        (m11, ⟨[], [⟨"error", "Automation stopped due to 10 consecutive errors"⟩,
          ⟨"stopped", "Automation stopped"⟩], [], 0⟩) := by
  refine ⟨?_, ?_, ?_, ?_, ?_⟩
  · exact (C4_ten_strikes.1 cfgM freshMotion failPollM "network" "m1" "l1"
      rfl rfl (by decide) rfl).1
  · exact C4_ten_strikes.2.1 cfgM sOff ⟨FetchResult.ok "off", true⟩ "off" "m1" "l1"
      rfl rfl (by decide) rfl
  · exact (C4_ten_strikes.2.2.1 freshAlarm t0 failPollA "network" (by decide) rfl).1
  · exact C4_ten_strikes.2.2.2.1 freshAlarm t0 armOkPoll "disarmed" (by decide) rfl
  · exact C4_ten_strikes.2.2.2.2.2.1 failPollM []

/-- C5: arm sequences of the Scheduled-Window Runner are never initiated
less than 5 minutes apart: over any run from a fresh start, consecutive
arm-initiation timestamps differ by at least `armCooldown`; a poll whose
action condition holds inside the cooldown window initiates nothing and
records a `cooldown` history entry with the remaining minutes; and whenever
an arm sequence is initiated, `lastArmAttempt` is set to the poll's
timestamp regardless of the sequence's outcome. -/
theorem C5_arm_cooldown :
    (∀ steps : List (ATime × APollInput),
      List.Chain' (fun a b => armCooldown ≤ b - a)
        (runA freshAlarm steps).2.armAttempts)
    ∧ (∀ (s : AlarmRunnerState) (now : ATime) (inp : APollInput) (t : Int),
      s.errorCount < maxErrors → inp.fetch = FetchResult.ok "disarmed" →
      s.lastAlarmState = some "disarmed" →
      isInArmingWindow now.hour now.minute = true →
      s.lastArmAttempt = some t → now.epochMs - t < armCooldown →
      (checkAndArm s now inp).2.armAttempts = [] ∧
      (checkAndArm s now inp).2.actions = [] ∧
      (checkAndArm s now inp).1.lastArmAttempt = some t ∧
      (checkAndArm s now inp).1.stateHistory =
        lastN 100 (s.stateHistory ++ [⟨"cooldown", "Waiting " ++
          toString ((armCooldown - (now.epochMs - t) + 59999) / 60000) ++
          "m before next arm attempt"⟩]))
    ∧ (∀ (s : AlarmRunnerState) (now : ATime) (inp : APollInput),
      s.errorCount < maxErrors → inp.fetch = FetchResult.ok "disarmed" →
      isInArmingWindow now.hour now.minute = true →
      (s.lastArmAttempt = none ∨
        ∃ t, s.lastArmAttempt = some t ∧ armCooldown ≤ now.epochMs - t) →
      (checkAndArm s now inp).1.lastArmAttempt = some now.epochMs ∧
      (checkAndArm s now inp).2.armAttempts = [now.epochMs]) := by
  refine ⟨?_, ?_, ?_⟩
  · intro steps
    have h := runA_chain steps freshAlarm
    simpa [freshAlarm] using h
  · intro s now inp t hg hf hlast hw hla hc
    rw [stepA_cooldown s now inp t hg hf hlast hw hla hc]
    exact ⟨rfl, rfl, hla, addA_hist _ _ _⟩
  · intro s now inp hg hf hw hready
    have h := stepA_arm s now inp hg hf hw hready
    exact ⟨h.1, h.2.1⟩

/-- Witness for C5: a second eligible poll one minute after an arm attempt
initiates no arm, and a first eligible poll sets `lastArmAttempt`. -/
theorem C5_arm_cooldown_witness :
    (checkAndArm aCooldown tNight2 armOkPoll).2.armAttempts = []
    ∧ (checkAndArm aDisarmed tNight armOkPoll).1.lastArmAttempt
        = some tNight.epochMs := by
  constructor
  · exact (C5_arm_cooldown.2.1 aCooldown tNight2 armOkPoll 1000000
      (by decide) rfl rfl (by decide) rfl (by decide)).1
  · exact (C5_arm_cooldown.2.2 aDisarmed tNight armOkPoll
      (by decide) rfl (by decide) (Or.inl rfl)).1

/-- C6 counterexample: after a successful arm sequence the 5-second
verification timer is pending, and `stop()` of the Scheduled-Window Runner
leaves it pending, so its callback can still fire after the stop —
contradicting the claim that stop cancels every pending deferred one-shot
timer of the runner. -/
theorem C6_counterexample :
    (checkAndArm freshAlarm tNight armOkPoll).1.verifyPending = true
    ∧ (((checkAndArm freshAlarm tNight armOkPoll).1.stopA).1.isRunning = false)
    ∧ (((checkAndArm freshAlarm tNight armOkPoll).1.stopA).1.verifyPending = true) := by
  decide

/-- C6 (amended): `stop()` cancels the recurring poll timer of both runner
variants (no poll callback runs after a stop) and the Edge-Triggered
Runner's pending deferred turn-off; the Scheduled-Window Runner's 5-second
post-arm verification timer, however, is not tracked by `stop()` and is
left pending. -/
theorem C6_stop_cancellation :
    (∀ s : MotionRunnerState, s.isRunning = true →
      (s.stopM).1.isRunning = false ∧ (s.stopM).1.timeoutPending = false)
    ∧ (∀ s : AlarmRunnerState,
      (s.stopA).1.isRunning = false ∧
      (s.stopA).1.verifyPending = s.verifyPending)
    ∧ (∀ (cfg : MotionConfig) (s : MotionRunnerState) (inps : List MPollInput),
      s.isRunning = false → runM cfg s inps = (s, MOut.empty))
    ∧ (∀ (s : AlarmRunnerState) (steps : List (ATime × APollInput)),
      s.isRunning = false → runA s steps = (s, AOut.empty)) := by
  refine ⟨?_, ?_, ?_, ?_⟩
  · intro s hr
    simp [MotionRunnerState.stopM, hr]
  · intro s
    simp only [AlarmRunnerState.stopA]
    split
    · exact ⟨rfl, rfl⟩
    · next h => exact ⟨by simpa using h, rfl⟩
  · exact fun cfg s inps h => runM_stopped cfg s inps h
  · exact fun s steps h => runA_stopped s steps h

/-- Witness for the amended C6 at concrete states. -/
theorem C6_stop_cancellation_witness :
    ((freshMotion.stopM).1.isRunning = false)
    ∧ ((freshAlarm.stopA).1.isRunning = false)
    ∧ runM cfgM m11 [failPollM] = (m11, MOut.empty)
    ∧ runA a11 [(t0, failPollA)] = (a11, AOut.empty) := by
  refine ⟨(C6_stop_cancellation.1 freshMotion rfl).1,
    (C6_stop_cancellation.2.1 freshAlarm).1,
    C6_stop_cancellation.2.2.1 cfgM m11 [failPollM] rfl,
    C6_stop_cancellation.2.2.2 a11 [(t0, failPollA)] rfl⟩

/-- C8 counterexample: the Scheduled-Window Runner logs an error event on
the 2nd consecutive poll-fetch failure, contradicting the claim that during
a failure run events are logged only on the 1st and every 5th failure. -/
theorem C8_counterexample :
    (checkAndArm (checkAndArm freshAlarm t0 failPollA).1 t0 failPollA).1.errorCount = 2
    ∧ (checkAndArm (checkAndArm freshAlarm t0 failPollA).1 t0 failPollA).2.events =
        [⟨"error", "Failed to get alarm state: network"⟩] := by
  decide

/-- C8 (amended): during a run of consecutive transient poll failures the
Edge-Triggered Runner logs an error event exactly on the 1st and every 5th
failure while writing a history ring entry every time; the Scheduled-Window
Runner writes a history entry every time but logs an error event on every
poll-fetch failure. -/
theorem C8_error_log_policy :
    (∀ (cfg : MotionConfig) (s : MotionRunnerState) (inp : MPollInput)
        (m me le : String),
      cfg.motion_entity = some me → cfg.light_entity = some le →
      s.errorCount < maxErrors → inp.fetch = FetchResult.err m →
      ((checkMotionState cfg s inp).2.events ≠ [] ↔
        (s.errorCount + 1 = 1 ∨ (s.errorCount + 1) % 5 = 0)) ∧
      (checkMotionState cfg s inp).1.stateHistory =
        lastN 50 (s.stateHistory ++ [⟨"error", "motion_state_error"⟩]))
    ∧ (∀ (s : AlarmRunnerState) (now : ATime) (inp : APollInput) (m : String),
      s.errorCount < maxErrors → inp.fetch = FetchResult.err m →
      (checkAndArm s now inp).2.events =
        [⟨"error", "Failed to get alarm state: " ++ m⟩] ∧
      (checkAndArm s now inp).1.stateHistory =
        lastN 100 (s.stateHistory ++
          [⟨"fetch_error", "Failed to get alarm state: " ++ m⟩])) := by
  constructor
  · intro cfg s inp m me le hme hle hg hf
    rw [stepM_fail cfg s inp m me le hme hle hg hf]
    constructor
    · by_cases hcond : (s.errorCount + 1 = 1 ∨ (s.errorCount + 1) % 5 = 0)
      · rw [if_pos hcond]
        exact iff_of_true (by simp) hcond
      · rw [if_neg hcond]
        exact iff_of_false (by simp) hcond
    · exact addM_hist _ _ _
  · intro s now inp m hg hf
    rw [stepA_fail s now inp m hg hf]
    exact ⟨rfl, addA_hist _ _ _⟩

/-- Witness for the amended C8: a 2nd motion failure logs nothing while a
1st alarm failure logs one event. -/
theorem C8_error_log_policy_witness :
    ((checkMotionState cfgM { freshMotion with errorCount := 1 } failPollM).2.events ≠ []
      ↔ ({ freshMotion with errorCount := 1 } : MotionRunnerState).errorCount + 1 = 1 ∨
        (({ freshMotion with errorCount := 1 } : MotionRunnerState).errorCount + 1) % 5 = 0)
    ∧ (checkAndArm freshAlarm t0 failPollA).2.events =
        [⟨"error", "Failed to get alarm state: network"⟩] := by
  constructor
  · exact (C8_error_log_policy.1 cfgM { freshMotion with errorCount := 1 } failPollM
      "network" "m1" "l1" rfl rfl (by decide) rfl).1
  · exact (C8_error_log_policy.2 freshAlarm t0 failPollA "network" (by decide) rfl).1

/-- C9 counterexample: an on→off transition of the Edge-Triggered Runner is
detected (a countdown is scheduled and the observed state advances) yet the
trigger count is not incremented; and the Scheduled-Window Runner increments
the trigger count on a successful poll with no state change. -/
theorem C9_counterexample :
    (checkMotionState cfgM sOn ⟨FetchResult.ok "off", true⟩).2.sched = [15]
    ∧ (checkMotionState cfgM sOn ⟨FetchResult.ok "off", true⟩).1.lastMotionState
        = some "off"
    ∧ (checkMotionState cfgM sOn ⟨FetchResult.ok "off", true⟩).2.trig = 0
    ∧ (checkAndArm aArmed t0 ⟨FetchResult.ok "armed_away", armInpOk⟩).1.lastAlarmState
        = some "armed_away"
    ∧ (checkAndArm aArmed t0 ⟨FetchResult.ok "armed_away", armInpOk⟩).2.trig = 1 := by
  decide

/-- C9 (amended): the Edge-Triggered Runner increments the external
trigger_count exactly once on each off→on transition and never on on→off
transitions, unchanged polls or failed polls; the Scheduled-Window Runner
increments it once on every successful poll not skipped by the arm cooldown,
whether or not a state change was observed, and never on failed polls. -/
theorem C9_trigger_count :
    (∀ (cfg : MotionConfig) (s : MotionRunnerState) (inp : MPollInput) (me le : String),
      cfg.motion_entity = some me → cfg.light_entity = some le →
      s.errorCount < maxErrors → s.lastMotionState = some "off" →
      inp.fetch = FetchResult.ok "on" →
      (checkMotionState cfg s inp).2.trig = 1)
    ∧ (∀ (cfg : MotionConfig) (s : MotionRunnerState) (inp : MPollInput) (me le : String),
      cfg.motion_entity = some me → cfg.light_entity = some le →
      s.errorCount < maxErrors → s.lastMotionState = some "on" →
      inp.fetch = FetchResult.ok "off" →
      (checkMotionState cfg s inp).2.trig = 0)
    ∧ (∀ (cfg : MotionConfig) (s : MotionRunnerState) (inp : MPollInput)
        (v me le : String),
      cfg.motion_entity = some me → cfg.light_entity = some le →
      s.errorCount < maxErrors → s.lastMotionState = some v →
      inp.fetch = FetchResult.ok v →
      (checkMotionState cfg s inp).2.trig = 0)
    ∧ (∀ (cfg : MotionConfig) (s : MotionRunnerState) (inp : MPollInput)
        (m me le : String),
      cfg.motion_entity = some me → cfg.light_entity = some le →
      s.errorCount < maxErrors → inp.fetch = FetchResult.err m →
      (checkMotionState cfg s inp).2.trig = 0)
    ∧ (∀ (s : AlarmRunnerState) (now : ATime) (inp : APollInput) (v : String),
      s.errorCount < maxErrors → inp.fetch = FetchResult.ok v →
      ((checkAndArm s now inp).2.trig = 0 ↔
        isInArmingWindow now.hour now.minute = true ∧ v = "disarmed" ∧
          ∃ t, s.lastArmAttempt = some t ∧ now.epochMs - t < armCooldown))
    ∧ (∀ (s : AlarmRunnerState) (now : ATime) (inp : APollInput) (m : String),
      s.errorCount < maxErrors → inp.fetch = FetchResult.err m →
      (checkAndArm s now inp).2.trig = 0) := by
  refine ⟨?_, ?_, ?_, ?_, ?_, ?_⟩
  · intro cfg s inp me le hme hle hg hlast hf
    exact (stepM_offOn cfg s inp me le hme hle hg hlast hf).2.2.2.2.2.2
  · intro cfg s inp me le hme hle hg hlast hf
    rw [stepM_onOff cfg s inp me le hme hle hg hlast hf]
  · intro cfg s inp v me le hme hle hg hlast hf
    rw [stepM_same cfg s inp v me le hme hle hg hlast hf]
    rfl
  · intro cfg s inp m me le hme hle hg hf
    rw [stepM_fail cfg s inp m me le hme hle hg hf]
  · intro s now inp v hg hf
    exact stepA_ok_trig s now inp v hg hf
  · intro s now inp m hg hf
    rw [stepA_fail s now inp m hg hf]

/-- Witness for the amended C9: an off→on poll increments the trigger count
once, and a failed alarm poll does not increment it. -/
theorem C9_trigger_count_witness :
    (checkMotionState cfgM sOff ⟨FetchResult.ok "on", true⟩).2.trig = 1
    ∧ (checkAndArm freshAlarm t0 failPollA).2.trig = 0 := by
  constructor
  · exact C9_trigger_count.1 cfgM sOff ⟨FetchResult.ok "on", true⟩ "m1" "l1"
      rfl rfl (by decide) rfl rfl
  · exact C9_trigger_count.2.2.2.2.2 freshAlarm t0 failPollA "network"
      (by decide) rfl

end Roystervi
